import Mathlib

/-!
Verification of the crypto moonshot screener's aggregation, merge, score,
filter and sort pipeline (`src/app/page.tsx`), shallowly embedded in Lean.
JavaScript numbers are modelled as rationals; optional (possibly `undefined`)
fields are modelled as `Option ℚ`; JS `x ?? 0` becomes `Option.getD x 0`.
-/

namespace Moonshot

/-- A catalyst/news alert as carried on an asset
(`alerts?: { title; description; created_at; rank? }[]`). -/
structure Alert where
  title : String
  description : String
  created_at : String
  rank : Option ℚ
deriving DecidableEq

/-- The `Asset` record of `page.tsx`: price fields from the pricing API plus
optional sentiment, on-chain and news fields merged in client-side.
`current_price` is modelled as optional because every consumer in the code
reads it as `asset.current_price ?? 0`. -/
structure Asset where
  id : String
  symbol : String
  name : String
  current_price : Option ℚ
  price_change_percentage_24h : Option ℚ
  price_change_percentage_7d_in_currency : Option ℚ
  market_cap : Option ℚ
  total_volume : Option ℚ
  score : Option ℚ
  bullishScore : Option ℚ
  bearishScore : Option ℚ
  mentionVolume : Option ℚ
  liquidity : Option ℚ
  holders : Option ℚ
  alerts : Option (List Alert)
deriving DecidableEq

/-- `calculateScore` from `page.tsx` (lines 64-90): momentum weighted by the
risk bias, plus a sentiment component and an on-chain (holders) component. -/
def calculateScore (asset : Asset) (riskBias : ℚ) : ℚ :=
  let change24h := asset.price_change_percentage_24h.getD 0
  let change7d := asset.price_change_percentage_7d_in_currency.getD 0
  let momentum := (1 - riskBias) * change24h + riskBias * change7d
  let bullish := asset.bullishScore.getD 0
  let bearish := asset.bearishScore.getD 0
  let netSentiment := bullish - bearish
  let sentimentComponent := netSentiment / 10
  let holders := asset.holders.getD 0
  let onchainComponent := holders / 10000
  momentum + sentimentComponent + onchainComponent

/-- JS `String.prototype.toLowerCase`, modelled as per-character lowering
(locale/Unicode special cases are out of scope). -/
def jsToLowerCase (s : String) : String := ⟨s.data.map Char.toLower⟩

/-- JS `String.prototype.trim`: strip leading and trailing whitespace. -/
def jsTrim (s : String) : String :=
  ⟨((s.data.dropWhile Char.isWhitespace).reverse.dropWhile
      Char.isWhitespace).reverse⟩

/-- JS `hay.includes (needle)` on lists of characters: `needle` occurs
contiguously inside `hay`. -/
def listIncludes (hay needle : List Char) : Bool :=
  match hay with
  | [] => needle.isEmpty
  | _ :: t => needle.isPrefixOf hay || listIncludes t needle

/-- JS `String.prototype.includes`. -/
def strIncludes (hay needle : String) : Bool :=
  listIncludes hay.toList needle.toList

/-- The numeric filter bounds of `page.tsx` (the `filters` state object).
In the source each bound is a string; a bound behaves as a constraint exactly
when the string is non-empty and `parseFloat` yields a number, so a bound is
modelled as `some q` (a string parsing to `q`) or `none` (empty or
unparseable, imposing no constraint). -/
structure Filters where
  minPrice : Option ℚ
  maxPrice : Option ℚ
  min24h : Option ℚ
  max24h : Option ℚ
  min7d : Option ℚ
  max7d : Option ℚ
  minVolume : Option ℚ
  minMarketCap : Option ℚ
  minBullish : Option ℚ
  maxBearish : Option ℚ
  minLiquidity : Option ℚ
  minHolders : Option ℚ
deriving DecidableEq

/-- One active-min-bound rejection test from the filter body:
`bound !== "" && !isNaN(parseFloat(bound)) && value < parseFloat(bound)`. -/
def minFails (bound : Option ℚ) (value : ℚ) : Bool :=
  match bound with
  | some b => value < b
  | none => false

/-- One active-max-bound rejection test from the filter body:
`bound !== "" && !isNaN(parseFloat(bound)) && value > parseFloat(bound)`. -/
def maxFails (bound : Option ℚ) (value : ℚ) : Bool :=
  match bound with
  | some b => b < value
  | none => false

/-- The `.filter` predicate of the `filtered` pipeline in `page.tsx`
(lines 407-486): a sequence of early `return false` tests — text search on
name/symbol, then each numeric bound — ending in `return true`. -/
def matchesFilter (search : String) (f : Filters) (asset : Asset) : Bool :=
  let term := jsTrim (jsToLowerCase search)
  let price := asset.current_price.getD 0
  let change24h := asset.price_change_percentage_24h.getD 0
  let change7d := asset.price_change_percentage_7d_in_currency.getD 0
  let volume := asset.total_volume.getD 0
  let mcap := asset.market_cap.getD 0
  let bullish := asset.bullishScore.getD 0
  let bearish := asset.bearishScore.getD 0
  let liquidity := asset.liquidity.getD 0
  let holders := asset.holders.getD 0
  if term ≠ "" ∧ ¬ strIncludes (jsToLowerCase asset.name) term = true
      ∧ ¬ strIncludes (jsToLowerCase asset.symbol) term = true then false
  else if minFails f.minPrice price then false
  else if maxFails f.maxPrice price then false
  else if minFails f.min24h change24h then false
  else if maxFails f.max24h change24h then false
  else if minFails f.min7d change7d then false
  else if maxFails f.max7d change7d then false
  else if minFails f.minVolume volume then false
  else if minFails f.minMarketCap mcap then false
  else if minFails f.minBullish bullish then false
  else if maxFails f.maxBearish bearish then false
  else if minFails f.minLiquidity liquidity then false
  else if minFails f.minHolders holders then false
  else true

/-- A record from the `/api/sentiment` endpoint, as consumed by the merge. -/
structure SentimentEntry where
  id : String
  bullishScore : Option ℚ
  bearishScore : Option ℚ
  mentionVolume : Option ℚ
deriving DecidableEq

/-- A record from the `/api/onchain` endpoint, as consumed by the merge. -/
structure OnchainEntry where
  id : String
  liquidity : Option ℚ
  holders : Option ℚ
deriving DecidableEq

/-- A record from the `/api/news` endpoint, as consumed by the merge. -/
structure NewsEntry where
  id : String
  updates : List Alert
deriving DecidableEq

/-- The id-keyed lookup tables of `loadDefault`
(`data.forEach((x) => { map[x.id] = x })`): left-to-right insertion, a later
entry with the same id overwriting an earlier one. -/
def buildMap (getId : σ → String) (xs : List σ) : String → Option σ :=
  xs.foldl (fun m x => fun k => if k = getId x then some x else m k)
    (fun _ => none)

/-- The sentiment part of `extra` in the merge of `loadDefault`: if the
sentiment lookup has an entry for the asset's id, its three fields overwrite
the asset's (`{ ...asset, ...extra }`); otherwise the asset is unchanged. -/
def applySentiment (smap : String → Option SentimentEntry) (asset : Asset) :
    Asset :=
  match smap asset.id with
  | some s =>
      { asset with bullishScore := s.bullishScore,
                   bearishScore := s.bearishScore,
                   mentionVolume := s.mentionVolume }
  | none => asset

/-- The on-chain part of `extra` in the merge of `loadDefault`. -/
def applyOnchain (omap : String → Option OnchainEntry) (asset : Asset) :
    Asset :=
  match omap asset.id with
  | some o => { asset with liquidity := o.liquidity, holders := o.holders }
  | none => asset

/-- The news-annotation step of `loadDefault`
(`n ? { ...asset, alerts: n.updates } : asset`). -/
def applyNews (nmap : String → Option NewsEntry) (asset : Asset) : Asset :=
  match nmap asset.id with
  | some n => { asset with alerts := some n.updates }
  | none => asset

/-- The merge step of `loadDefault` (`page.tsx` lines 169-213): build lookup
maps for the sentiment, on-chain and news payloads, then produce one output
record per price record: first `merged` (price data with the matching
sentiment and on-chain fields spread in), then `withNews` (alerts from the
matching news entry). Auxiliary entries whose id matches no price record are
never consulted. -/
def mergeAssets (priceData : List Asset) (sentimentData : List SentimentEntry)
    (onchainData : List OnchainEntry) (newsData : List NewsEntry) :
    List Asset :=
  let sentimentMap := buildMap SentimentEntry.id sentimentData
  let onchainMap := buildMap OnchainEntry.id onchainData
  let newsMap := buildMap NewsEntry.id newsData
  let merged := priceData.map (fun asset =>
    applyOnchain onchainMap (applySentiment sentimentMap asset))
  merged.map (applyNews newsMap)

/-- Outcome of one `fetch` call as the page code can observe it:
`success d` — `res.ok` and the body parsed to the expected list `d`;
`httpError` — the response arrived with `res.ok` false;
`thrown` — the `fetch` (or reading its body) threw. -/
inductive FetchOutcome (α : Type) where
  | success (data : α)
  | httpError
  | thrown
deriving DecidableEq

/-- `res.ok ? await res.json() : []` — an auxiliary payload, with a failed
source degraded to the empty list. -/
def auxData : FetchOutcome (List σ) → List σ
  | .success d => d
  | _ => []

/-- The state transition `loadDefault` applies to the displayed asset list
(`page.tsx` lines 144-220), as a function of the previous list and the four
fetch outcomes.
A thrown price fetch lands in the outer `catch`, which only logs, so the
previous list survives. A non-success price response also leaves the previous
list: `/api/prices` answers errors with a JSON object `{ error }`, which
passes the `!priceData || priceData.length === 0` guard (`undefined === 0` is
false) and then makes `priceData.map` throw into the same outer `catch`.
A successful empty price list yields `[]`. A thrown sentiment or on-chain
fetch rejects the `Promise.all`, again reaching the outer `catch` with the
previous list intact; non-success sentiment/on-chain responses degrade to
`[]`. The news fetch sits in its own `try`/`catch`, so both a thrown and a
non-success news fetch degrade to `[]`. -/
def loadDefaultAssets (prev : List Asset)
    (priceOutcome : FetchOutcome (List Asset))
    (sentimentOutcome : FetchOutcome (List SentimentEntry))
    (onchainOutcome : FetchOutcome (List OnchainEntry))
    (newsOutcome : FetchOutcome (List NewsEntry)) : List Asset :=
  match priceOutcome with
  | .thrown => prev
  | .httpError => prev
  | .success priceData =>
    if priceData.isEmpty then []
    else
      match sentimentOutcome, onchainOutcome with
      | .thrown, _ => prev
      | _, .thrown => prev
      | s, o =>
          mergeAssets priceData (auxData s) (auxData o) (auxData newsOutcome)

/-- The state transition of the search-triggered refresh path
(`page.tsx` lines 254-353) after a non-empty id list was obtained: a
non-success price response clears the list (`setAssets([])`); a thrown price
fetch reaches the outer `catch` (previous list kept); a thrown sentiment or
on-chain fetch reaches the inner `catch`, which falls back to the bare price
data; otherwise the same merge as `loadDefault` runs. -/
def searchRefreshAssets (prev : List Asset)
    (priceOutcome : FetchOutcome (List Asset))
    (sentimentOutcome : FetchOutcome (List SentimentEntry))
    (onchainOutcome : FetchOutcome (List OnchainEntry))
    (newsOutcome : FetchOutcome (List NewsEntry)) : List Asset :=
  match priceOutcome with
  | .thrown => prev
  | .httpError => []
  | .success priceData =>
    match sentimentOutcome, onchainOutcome with
    | .thrown, _ => priceData
    | _, .thrown => priceData
    | s, o =>
        mergeAssets priceData (auxData s) (auxData o) (auxData newsOutcome)

/-- `toggleWatch` from `page.tsx` (lines 369-379): remove the id from the
watchlist if present, insert it otherwise. -/
def toggleWatch (watchlist : Finset String) (id : String) : Finset String :=
  if id ∈ watchlist then watchlist.erase id else insert id watchlist

/-- `getValue` from the sort comparator in `filtered` (`page.tsx` lines
500-534), restricted to the numeric sort fields; missing fields read as 0,
the synthetic `alert` key reads the first alert's rank (0 when there are no
alerts). The `name` key, which yields a string, is handled in `keyCmp`. -/
def getValue (sortField : String) (item : Asset) : ℚ :=
  if sortField = "price" then item.current_price.getD 0
  else if sortField = "24h" then item.price_change_percentage_24h.getD 0
  else if sortField = "7d" then
    item.price_change_percentage_7d_in_currency.getD 0
  else if sortField = "volume" then item.total_volume.getD 0
  else if sortField = "market_cap" then item.market_cap.getD 0
  else if sortField = "bullish" then item.bullishScore.getD 0
  else if sortField = "bearish" then item.bearishScore.getD 0
  else if sortField = "mentions" then item.mentionVolume.getD 0
  else if sortField = "liquidity" then item.liquidity.getD 0
  else if sortField = "holders" then item.holders.getD 0
  else if sortField = "alert" then
    match item.alerts with
    | some (a :: _) => a.rank.getD 0
    | _ => 0
  else item.score.getD 0

/-- Three-way string comparison standing in for JS `localeCompare` (the
locale-aware collation is abstracted to the lexicographic string order). -/
def strCompare (s t : String) : ℚ :=
  if s < t then -1 else if s = t then 0 else 1

/-- The non-pin part of the sort comparator: direction multiplier applied to
`localeCompare` of lowercased names for the `name` field and to the numeric
difference for every other field. -/
def keyCmp (sortField sortDirection : String) (a b : Asset) : ℚ :=
  let multiplier : ℚ := if sortDirection = "asc" then 1 else -1
  if sortField = "name" then
    multiplier * strCompare (jsToLowerCase a.name) (jsToLowerCase b.name)
  else multiplier * (getValue sortField a - getValue sortField b)

/-- The full sort comparator of `filtered` (`page.tsx` lines 491-543):
watchlisted assets first, then the selected key under the selected
direction. -/
def assetCmp (pins : Finset String) (sortField sortDirection : String)
    (a b : Asset) : ℚ :=
  let aWatched := a.id ∈ pins
  let bWatched := b.id ∈ pins
  if aWatched ∧ ¬ bWatched then -1
  else if ¬ aWatched ∧ bWatched then 1
  else keyCmp sortField sortDirection a b

/-- The `.sort(...)` stage of `filtered`, modelled as a stable merge sort by
the comparator (ECMAScript requires `Array.prototype.sort` to be stable). -/
def sortAssets (recs : List Asset) (pins : Finset String)
    (sortField sortDirection : String) : List Asset :=
  recs.mergeSort
    (fun a b => decide (assetCmp pins sortField sortDirection a b ≤ 0))

/-- The `.map` stage of `filtered`: attach the computed score. -/
def attachScore (riskBias : ℚ) (asset : Asset) : Asset :=
  { asset with score := some (calculateScore asset riskBias) }

/-- The whole `filtered` pipeline of `page.tsx` (lines 407-543):
filter, then score, then sort. -/
def filteredAssets (assets : List Asset) (search : String) (f : Filters)
    (riskBias : ℚ) (pins : Finset String) (sortField sortDirection : String) :
    List Asset :=
  sortAssets ((assets.filter (matchesFilter search f)).map
    (attachScore riskBias)) pins sortField sortDirection

/-! ### Spec-side definitions (for refinement statements) -/

/-- Spec reading of a min bound: when a bound is supplied, the field must be
at least the bound (inclusive); an absent bound imposes no constraint. -/
def minOk (bound : Option ℚ) (value : ℚ) : Prop :=
  ∀ b, bound = some b → b ≤ value

/-- Spec reading of a max bound: when a bound is supplied, the field must be
at most the bound (inclusive); an absent bound imposes no constraint. -/
def maxOk (bound : Option ℚ) (value : ℚ) : Prop :=
  ∀ b, bound = some b → value ≤ b

/-- The filter predicate as the spec words it: the conjunction of the text
predicate and of one inclusive bound predicate per supplied numeric bound,
missing record fields compared as 0. -/
def matchesFilterSpec (search : String) (f : Filters) (asset : Asset) :
    Prop :=
  (jsTrim (jsToLowerCase search) ≠ "" →
    (strIncludes (jsToLowerCase asset.name) (jsTrim (jsToLowerCase search))
        = true ∨
      strIncludes (jsToLowerCase asset.symbol) (jsTrim (jsToLowerCase search))
        = true)) ∧
  minOk f.minPrice (asset.current_price.getD 0) ∧
  maxOk f.maxPrice (asset.current_price.getD 0) ∧
  minOk f.min24h (asset.price_change_percentage_24h.getD 0) ∧
  maxOk f.max24h (asset.price_change_percentage_24h.getD 0) ∧
  minOk f.min7d (asset.price_change_percentage_7d_in_currency.getD 0) ∧
  maxOk f.max7d (asset.price_change_percentage_7d_in_currency.getD 0) ∧
  minOk f.minVolume (asset.total_volume.getD 0) ∧
  minOk f.minMarketCap (asset.market_cap.getD 0) ∧
  minOk f.minBullish (asset.bullishScore.getD 0) ∧
  maxOk f.maxBearish (asset.bearishScore.getD 0) ∧
  minOk f.minLiquidity (asset.liquidity.getD 0) ∧
  minOk f.minHolders (asset.holders.getD 0)

/-- Tightening of a min bound: raise its value or add a previously absent
bound (an untightened bound — `b` absent — may become anything). -/
def minTightened (b bt : Option ℚ) : Prop :=
  b = none ∨ ∃ v vt, b = some v ∧ bt = some vt ∧ v ≤ vt

/-- Tightening of a max bound: lower its value or add a previously absent
bound. -/
def maxTightened (b bt : Option ℚ) : Prop :=
  b = none ∨ ∃ v vt, b = some v ∧ bt = some vt ∧ vt ≤ v

/-- `ft` tightens `f`: every bound of `ft` is a tightening of the
corresponding bound of `f`. -/
def filtersTightened (f ft : Filters) : Prop :=
  minTightened f.minPrice ft.minPrice ∧
  maxTightened f.maxPrice ft.maxPrice ∧
  minTightened f.min24h ft.min24h ∧
  maxTightened f.max24h ft.max24h ∧
  minTightened f.min7d ft.min7d ∧
  maxTightened f.max7d ft.max7d ∧
  minTightened f.minVolume ft.minVolume ∧
  minTightened f.minMarketCap ft.minMarketCap ∧
  minTightened f.minBullish ft.minBullish ∧
  maxTightened f.maxBearish ft.maxBearish ∧
  minTightened f.minLiquidity ft.minLiquidity ∧
  minTightened f.minHolders ft.minHolders

/-- The price-source-owned fields of a record, bundled for frame
statements. -/
def priceFields (a : Asset) :
    String × String × String × Option ℚ × Option ℚ × Option ℚ × Option ℚ ×
      Option ℚ :=
  (a.id, a.symbol, a.name, a.current_price, a.price_change_percentage_24h,
    a.price_change_percentage_7d_in_currency, a.market_cap, a.total_volume)

/-! ### Concrete records used in examples, witnesses and counterexamples -/

/-- A fully-empty optional part, convenient as a base record. -/
def baseAsset (id symbol name : String) (price : Option ℚ) : Asset :=
  { id := id, symbol := symbol, name := name, current_price := price,
    price_change_percentage_24h := none,
    price_change_percentage_7d_in_currency := none, market_cap := none,
    total_volume := none, score := none, bullishScore := none,
    bearishScore := none, mentionVolume := none, liquidity := none,
    holders := none, alerts := none }

/-- The record of the spec's worked score example: change24h=10, change7d=-2,
bullish=60, bearish=20, holders=20000. -/
def exampleScoreAsset : Asset :=
  { baseAsset "moon" "moon" "Moon" (some 1) with
    price_change_percentage_24h := some 10,
    price_change_percentage_7d_in_currency := some (-2),
    bullishScore := some 60, bearishScore := some 20,
    holders := some 20000 }

/-- Bitcoin record of the spec's pinned-sort example (score 50). -/
def bitcoinRec : Asset :=
  { baseAsset "bitcoin" "btc" "Bitcoin" (some 60000) with score := some 50 }

/-- Dogecoin record of the spec's pinned-sort example (score -5). -/
def dogecoinRec : Asset :=
  { baseAsset "dogecoin" "doge" "Dogecoin" (some (1/10)) with
    score := some (-5) }

/-- A price record used as concrete input for merge and pipeline facts. -/
def solanaRec : Asset := baseAsset "solana" "sol" "Solana" (some 150)

/-- A sentiment entry matching `solanaRec`. -/
def solanaSentiment : SentimentEntry :=
  { id := "solana", bullishScore := some 80, bearishScore := some 10,
    mentionVolume := some 5 }

/-- A sentiment entry whose id matches no price record. -/
def straySentiment : SentimentEntry :=
  { id := "unknown-token", bullishScore := some 99, bearishScore := some 1,
    mentionVolume := some 7 }

/-- An on-chain entry whose id matches no price record. -/
def strayOnchain : OnchainEntry :=
  { id := "unknown-token", liquidity := some 3, holders := some 4 }

/-- A news entry whose id matches no price record. -/
def strayNews : NewsEntry :=
  { id := "unknown-token",
    updates := [{ title := "t", description := "d", created_at := "now",
                  rank := some 1 }] }

/-- First record of the score-dependence counterexample: everything differs
from `depAssetB` except the 24h change. -/
def depAssetA : Asset :=
  { id := "a", symbol := "A1", name := "Alpha", current_price := some 1,
    price_change_percentage_24h := some 3,
    price_change_percentage_7d_in_currency := some 100,
    market_cap := some 1, total_volume := some 1, score := some 1,
    bullishScore := some 0, bearishScore := some 50, mentionVolume := some 1,
    liquidity := some 1, holders := some 0, alerts := none }

/-- Second record of the score-dependence counterexample: agrees with
`depAssetA` on the 24h change only. -/
def depAssetB : Asset :=
  { id := "b", symbol := "B2", name := "Beta", current_price := some 2,
    price_change_percentage_24h := some 3,
    price_change_percentage_7d_in_currency := some 200,
    market_cap := some 2, total_volume := some 2, score := some 2,
    bullishScore := some 80, bearishScore := some 10, mentionVolume := some 2,
    liquidity := some 2, holders := some 10000, alerts := some [] }

/-- `depAssetA` with only the 7d change altered (used to witness that the
score at bias 0 ignores the 7d change). -/
def dep7Variant : Asset :=
  { depAssetA with price_change_percentage_7d_in_currency := some 999 }

/-- `depAssetA` with only the 24h change altered (used to witness that the
score at bias 1 ignores the 24h change). -/
def dep24Variant : Asset :=
  { depAssetA with price_change_percentage_24h := some 42 }

/-- The all-absent filter configuration (every bound the empty string). -/
def emptyFilters : Filters :=
  { minPrice := none, maxPrice := none, min24h := none, max24h := none,
    min7d := none, max7d := none, minVolume := none, minMarketCap := none,
    minBullish := none, maxBearish := none, minLiquidity := none,
    minHolders := none }

/-- `emptyFilters` with a minimum-price bound of 1 added. -/
def tightFilters : Filters := { emptyFilters with minPrice := some 1 }

/-! ### Helper lemmas -/

theorem ite_false_chain {c : Prop} [Decidable c] {e : Bool} :
    (if c then false else e) = true ↔ ¬ c ∧ e = true := by
  by_cases h : c <;> simp [h]

theorem minFails_eq_false_iff {b : Option ℚ} {v : ℚ} :
    minFails b v = false ↔ minOk b v := by
  cases b <;> simp [minFails, minOk, not_lt]

theorem maxFails_eq_false_iff {b : Option ℚ} {v : ℚ} :
    maxFails b v = false ↔ maxOk b v := by
  cases b <;> simp [maxFails, maxOk, not_lt]

theorem not_minFails_iff {b : Option ℚ} {v : ℚ} :
    ¬ minFails b v = true ↔ minOk b v := by
  rw [Bool.not_eq_true]
  exact minFails_eq_false_iff

theorem not_maxFails_iff {b : Option ℚ} {v : ℚ} :
    ¬ maxFails b v = true ↔ maxOk b v := by
  rw [Bool.not_eq_true]
  exact maxFails_eq_false_iff

/-- The sequential early-return filter predicate of the code agrees with the
spec's conjunction-of-predicates reading. -/
theorem matchesFilter_eq_spec (search : String) (f : Filters) (a : Asset) :
    matchesFilter search f a = true ↔ matchesFilterSpec search f a := by
  simp only [matchesFilter, ite_false_chain, not_minFails_iff,
    not_maxFails_iff, and_true, matchesFilterSpec]
  constructor
  · rintro ⟨h1, h⟩
    exact ⟨fun ht => by tauto, h⟩
  · rintro ⟨h1, h⟩
    exact ⟨fun hc => by tauto, h⟩

theorem minOk_of_tightened {b bt : Option ℚ} {v : ℚ}
    (h : minTightened b bt) (hv : minOk bt v) : minOk b v := by
  rcases h with h | ⟨x, y, hb, hbt, hxy⟩
  · intro c hc
    rw [h] at hc
    cases hc
  · intro c hc
    rw [hb] at hc
    cases hc
    exact le_trans hxy (hv y hbt)

theorem maxOk_of_tightened {b bt : Option ℚ} {v : ℚ}
    (h : maxTightened b bt) (hv : maxOk bt v) : maxOk b v := by
  rcases h with h | ⟨x, y, hb, hbt, hxy⟩
  · intro c hc
    rw [h] at hc
    cases hc
  · intro c hc
    rw [hb] at hc
    cases hc
    exact le_trans (hv y hbt) hxy

theorem foldl_buildMap_agree (getId : σ → String) (l : List σ)
    (m mt : String → Option σ) (k : String) (h : m k = mt k) :
    (l.foldl (fun m x => fun k => if k = getId x then some x else m k) m) k =
      (l.foldl (fun m x => fun k => if k = getId x then some x else m k) mt)
        k := by
  induction l generalizing m mt with
  | nil => exact h
  | cons y ys ih =>
      simp only [List.foldl_cons]
      apply ih
      by_cases hk : k = getId y <;> simp [hk, h]

theorem buildMap_skip (getId : σ → String) (l1 l2 : List σ) (x : σ)
    (k : String) (hk : k ≠ getId x) :
    buildMap getId (l1 ++ x :: l2) k = buildMap getId (l1 ++ l2) k := by
  unfold buildMap
  rw [List.foldl_append, List.foldl_append, List.foldl_cons]
  apply foldl_buildMap_agree
  simp [hk]

theorem applySentiment_id (smap : String → Option SentimentEntry)
    (a : Asset) : (applySentiment smap a).id = a.id := by
  unfold applySentiment
  split <;> rfl

theorem applyOnchain_id (omap : String → Option OnchainEntry) (a : Asset) :
    (applyOnchain omap a).id = a.id := by
  unfold applyOnchain
  split <;> rfl

theorem applyNews_id (nmap : String → Option NewsEntry) (a : Asset) :
    (applyNews nmap a).id = a.id := by
  unfold applyNews
  split <;> rfl

theorem applySentiment_priceFields (smap : String → Option SentimentEntry)
    (a : Asset) : priceFields (applySentiment smap a) = priceFields a := by
  unfold applySentiment
  split <;> rfl

theorem applyOnchain_priceFields (omap : String → Option OnchainEntry)
    (a : Asset) : priceFields (applyOnchain omap a) = priceFields a := by
  unfold applyOnchain
  split <;> rfl

theorem applyNews_priceFields (nmap : String → Option NewsEntry) (a : Asset) :
    priceFields (applyNews nmap a) = priceFields a := by
  unfold applyNews
  split <;> rfl

theorem applyOnchain_sentiment_frame (omap : String → Option OnchainEntry)
    (a : Asset) :
    (applyOnchain omap a).bullishScore = a.bullishScore ∧
    (applyOnchain omap a).bearishScore = a.bearishScore ∧
    (applyOnchain omap a).mentionVolume = a.mentionVolume := by
  unfold applyOnchain
  split <;> exact ⟨rfl, rfl, rfl⟩

theorem applyNews_sentiment_frame (nmap : String → Option NewsEntry)
    (a : Asset) :
    (applyNews nmap a).bullishScore = a.bullishScore ∧
    (applyNews nmap a).bearishScore = a.bearishScore ∧
    (applyNews nmap a).mentionVolume = a.mentionVolume := by
  unfold applyNews
  split <;> exact ⟨rfl, rfl, rfl⟩

theorem mergeAssets_map_id (p : List Asset) (s : List SentimentEntry)
    (o : List OnchainEntry) (n : List NewsEntry) :
    (mergeAssets p s o n).map Asset.id = p.map Asset.id := by
  simp only [mergeAssets, List.map_map]
  apply List.map_congr_left
  intro a _
  show (applyNews _ (applyOnchain _ (applySentiment _ a))).id = a.id
  rw [applyNews_id, applyOnchain_id, applySentiment_id]

theorem mergeAssets_drop_sentiment (p : List Asset) (s1 s2 : List SentimentEntry)
    (x : SentimentEntry) (o : List OnchainEntry) (n : List NewsEntry)
    (hx : x.id ∉ p.map Asset.id) :
    mergeAssets p (s1 ++ x :: s2) o n = mergeAssets p (s1 ++ s2) o n := by
  simp only [mergeAssets, List.map_map]
  apply List.map_congr_left
  intro a ha
  have hmem : a.id ∈ p.map Asset.id := List.mem_map_of_mem Asset.id ha
  have hne : a.id ≠ x.id := by
    intro h
    rw [h] at hmem
    exact hx hmem
  have hb := buildMap_skip SentimentEntry.id s1 s2 x a.id hne
  show applyNews _ (applyOnchain _ (applySentiment _ a)) =
    applyNews _ (applyOnchain _ (applySentiment _ a))
  unfold applySentiment
  rw [hb]

theorem mergeAssets_drop_onchain (p : List Asset) (s : List SentimentEntry)
    (o1 o2 : List OnchainEntry) (x : OnchainEntry) (n : List NewsEntry)
    (hx : x.id ∉ p.map Asset.id) :
    mergeAssets p s (o1 ++ x :: o2) n = mergeAssets p s (o1 ++ o2) n := by
  simp only [mergeAssets, List.map_map]
  apply List.map_congr_left
  intro a ha
  have hmem : a.id ∈ p.map Asset.id := List.mem_map_of_mem Asset.id ha
  have hne : a.id ≠ x.id := by
    intro h
    rw [h] at hmem
    exact hx hmem
  have hb := buildMap_skip OnchainEntry.id o1 o2 x a.id hne
  show applyNews _ (applyOnchain _ (applySentiment _ a)) =
    applyNews _ (applyOnchain _ (applySentiment _ a))
  unfold applyOnchain
  rw [applySentiment_id, hb]

theorem mergeAssets_drop_news (p : List Asset) (s : List SentimentEntry)
    (o : List OnchainEntry) (n1 n2 : List NewsEntry) (x : NewsEntry)
    (hx : x.id ∉ p.map Asset.id) :
    mergeAssets p s o (n1 ++ x :: n2) = mergeAssets p s o (n1 ++ n2) := by
  simp only [mergeAssets, List.map_map]
  apply List.map_congr_left
  intro a ha
  have hmem : a.id ∈ p.map Asset.id := List.mem_map_of_mem Asset.id ha
  have hne : a.id ≠ x.id := by
    intro h
    rw [h] at hmem
    exact hx hmem
  have hb := buildMap_skip NewsEntry.id n1 n2 x a.id hne
  show applyNews _ (applyOnchain _ (applySentiment _ a)) =
    applyNews _ (applyOnchain _ (applySentiment _ a))
  unfold applyNews
  rw [applyOnchain_id, applySentiment_id, hb]

theorem ite_isEmpty_merge (p : List Asset) (s : List SentimentEntry)
    (o : List OnchainEntry) (n : List NewsEntry) :
    (if p.isEmpty then [] else mergeAssets p s o n) = mergeAssets p s o n := by
  by_cases hp : p.isEmpty = true
  · rw [if_pos hp, List.isEmpty_iff.mp hp]
    rfl
  · rw [if_neg hp]

theorem merge_no_sentiment_frame (omap : String → Option OnchainEntry)
    (nmap : String → Option NewsEntry) (a : Asset) :
    (applyNews nmap (applyOnchain omap
        (applySentiment (buildMap SentimentEntry.id []) a))).bullishScore =
      a.bullishScore ∧
    (applyNews nmap (applyOnchain omap
        (applySentiment (buildMap SentimentEntry.id []) a))).bearishScore =
      a.bearishScore ∧
    (applyNews nmap (applyOnchain omap
        (applySentiment (buildMap SentimentEntry.id []) a))).mentionVolume =
      a.mentionVolume := by
  have h1 := applyNews_sentiment_frame nmap (applyOnchain omap a)
  have h2 := applyOnchain_sentiment_frame omap a
  exact ⟨h1.1.trans h2.1, h1.2.1.trans h2.2.1, h1.2.2.trans h2.2.2⟩

theorem strCompare_neg (s t : String) : strCompare t s = - strCompare s t := by
  unfold strCompare
  rcases lt_trichotomy s t with h | h | h
  · rw [if_pos h, if_neg (asymm h), if_neg (ne_of_gt h)]
    norm_num
  · subst h
    simp
  · rw [if_pos h, if_neg (asymm h), if_neg (ne_of_gt h)]

theorem strCompare_le_zero_iff {s t : String} : strCompare s t ≤ 0 ↔ s ≤ t := by
  unfold strCompare
  rcases lt_trichotomy s t with h | h | h
  · simp [h, le_of_lt h]
  · simp [h]
  · rw [if_neg (asymm h), if_neg (ne_of_gt h)]
    simp [not_le.mpr h]

theorem strCompare_nonneg_iff {s t : String} :
    0 ≤ strCompare s t ↔ t ≤ s := by
  rw [← neg_nonpos, ← strCompare_neg, strCompare_le_zero_iff]

theorem mul_sub_trans {m va vb vc : ℚ} (hm : m = 1 ∨ m = -1)
    (h1 : m * (va - vb) ≤ 0) (h2 : m * (vb - vc) ≤ 0) :
    m * (va - vc) ≤ 0 := by
  rcases hm with rfl | rfl <;> linarith

theorem mul_strCompare_trans {m : ℚ} (hm : m = 1 ∨ m = -1) {x y z : String}
    (h1 : m * strCompare x y ≤ 0) (h2 : m * strCompare y z ≤ 0) :
    m * strCompare x z ≤ 0 := by
  rcases hm with rfl | rfl
  · rw [one_mul] at h1 h2 ⊢
    rw [strCompare_le_zero_iff] at h1 h2 ⊢
    exact le_trans h1 h2
  · rw [neg_one_mul, neg_nonpos] at h1 h2 ⊢
    rw [strCompare_nonneg_iff] at h1 h2 ⊢
    exact le_trans h2 h1

theorem multiplier_cases (d : String) :
    (if d = "asc" then (1 : ℚ) else -1) = 1 ∨
      (if d = "asc" then (1 : ℚ) else -1) = -1 := by
  by_cases hd : d = "asc" <;> simp [hd]

theorem keyCmp_neg (f d : String) (a b : Asset) :
    keyCmp f d b a = - keyCmp f d a b := by
  unfold keyCmp
  by_cases hn : f = "name" <;> simp only [hn, if_true, if_false, reduceIte]
  · rw [strCompare_neg]
    ring
  · ring

theorem keyCmp_trans (f d : String) (a b c : Asset)
    (h1 : keyCmp f d a b ≤ 0) (h2 : keyCmp f d b c ≤ 0) :
    keyCmp f d a c ≤ 0 := by
  unfold keyCmp at h1 h2 ⊢
  by_cases hn : f = "name" <;>
    simp only [hn, if_true, if_false, reduceIte] at h1 h2 ⊢
  · exact mul_strCompare_trans (multiplier_cases d) h1 h2
  · exact mul_sub_trans (multiplier_cases d) h1 h2

theorem assetCmp_neg (pins : Finset String) (f d : String) (a b : Asset) :
    assetCmp pins f d b a = - assetCmp pins f d a b := by
  unfold assetCmp
  by_cases ha : a.id ∈ pins <;> by_cases hb : b.id ∈ pins <;>
      simp only [ha, hb, not_true_eq_false, not_false_eq_true, true_and,
        false_and, and_true, and_false, and_self, if_true, if_false,
        reduceIte] <;>
    first
      | exact keyCmp_neg f d a b
      | norm_num

theorem assetCmp_trans (pins : Finset String) (f d : String) (a b c : Asset)
    (h1 : assetCmp pins f d a b ≤ 0) (h2 : assetCmp pins f d b c ≤ 0) :
    assetCmp pins f d a c ≤ 0 := by
  unfold assetCmp at h1 h2 ⊢
  by_cases ha : a.id ∈ pins <;> by_cases hb : b.id ∈ pins <;>
      by_cases hc : c.id ∈ pins <;>
      simp only [ha, hb, hc, not_true_eq_false, not_false_eq_true, true_and,
        false_and, and_true, and_false, and_self, if_true, if_false,
        reduceIte] at h1 h2 ⊢ <;>
    first
      | exact keyCmp_trans f d a b c h1 h2
      | linarith

theorem assetLe_trans (pins : Finset String) (f d : String) :
    ∀ (a b c : Asset),
      decide (assetCmp pins f d a b ≤ 0) = true →
      decide (assetCmp pins f d b c ≤ 0) = true →
      decide (assetCmp pins f d a c ≤ 0) = true := by
  intro a b c h1 h2
  rw [decide_eq_true_iff] at h1 h2 ⊢
  exact assetCmp_trans pins f d a b c h1 h2

theorem assetLe_total (pins : Finset String) (f d : String) :
    ∀ (a b : Asset),
      (decide (assetCmp pins f d a b ≤ 0) ||
        decide (assetCmp pins f d b a ≤ 0)) = true := by
  intro a b
  rw [Bool.or_eq_true, decide_eq_true_iff, decide_eq_true_iff]
  by_cases h : assetCmp pins f d a b ≤ 0
  · exact Or.inl h
  · right
    rw [assetCmp_neg]
    linarith [not_le.mp h]

theorem pairwise_pin_split (pins : Finset String) (f d : String)
    (l : List Asset)
    (hp : l.Pairwise (fun a b => decide (assetCmp pins f d a b ≤ 0) = true)) :
    ∃ l1 l2, l = l1 ++ l2 ∧ (∀ a ∈ l1, a.id ∈ pins) ∧
      (∀ a ∈ l2, a.id ∉ pins) := by
  induction l with
  | nil => exact ⟨[], [], rfl, by simp, by simp⟩
  | cons a t ih =>
      rw [List.pairwise_cons] at hp
      obtain ⟨l1, l2, ht, h1, h2⟩ := ih hp.2
      by_cases ha : a.id ∈ pins
      · refine ⟨a :: l1, l2, ?_, ?_, h2⟩
        · rw [ht, List.cons_append]
        · intro x hx
          rcases List.mem_cons.mp hx with rfl | hx
          · exact ha
          · exact h1 x hx
      · have hl1 : l1 = [] := by
          cases l1 with
          | nil => rfl
          | cons b t1 =>
              exfalso
              have hb : b ∈ t := by
                rw [ht]
                exact List.mem_append_left _ (List.mem_cons_self b t1)
              have hle := hp.1 b hb
              rw [decide_eq_true_iff] at hle
              have hbpin : b.id ∈ pins := h1 b (List.mem_cons_self b t1)
              unfold assetCmp at hle
              rw [if_neg (fun hand => ha hand.1),
                if_pos ⟨ha, hbpin⟩] at hle
              norm_num at hle
        subst hl1
        refine ⟨[], a :: l2, ?_, by simp, ?_⟩
        · rw [List.nil_append] at ht
          rw [ht, List.nil_append]
        · intro x hx
          rcases List.mem_cons.mp hx with rfl | hx
          · exact ha
          · exact h2 x hx

theorem sortAssets_pairwise (recs : List Asset) (pins : Finset String)
    (f d : String) :
    (sortAssets recs pins f d).Pairwise
      (fun a b => decide (assetCmp pins f d a b ≤ 0) = true) :=
  @List.sorted_mergeSort Asset
    (fun a b => decide (assetCmp pins f d a b ≤ 0))
    (assetLe_trans pins f d) (assetLe_total pins f d) recs

theorem mergeSort_pair {α : Type} (le : α → α → Bool) (a b : α) :
    List.mergeSort [a, b] le = if le a b then [a, b] else [b, a] := by
  rw [List.mergeSort]
  simp [List.splitInTwo, List.splitAt_eq, List.merge]

/-! ### Claim theorems -/

/-- C1: `calculateScore` is exactly the sum of the momentum component
`(1 - riskBias) * change24h + riskBias * change7d`, the sentiment component
`(bullish - bearish) / 10` and the breadth component `holders / 10000`, with
missing fields read as 0 and no further normalization; on the spec's example
record at riskBias 1/2 it yields exactly 10. -/
theorem calculateScore_is_component_sum :
    (∀ (a : Asset) (riskBias : ℚ),
      calculateScore a riskBias =
        ((1 - riskBias) * a.price_change_percentage_24h.getD 0 +
            riskBias * a.price_change_percentage_7d_in_currency.getD 0) +
          (a.bullishScore.getD 0 - a.bearishScore.getD 0) / 10 +
          a.holders.getD 0 / 10000) ∧
    calculateScore exampleScoreAsset (1 / 2) = 10 := by
  constructor
  · intro a riskBias
    rfl
  · norm_num [calculateScore, exampleScoreAsset, baseAsset]

/-- C6 counterexample: `depAssetA` and `depAssetB` agree on the 24h change
and differ on every other field, yet their scores at riskBias 0 differ —
the score at bias 0 also reads sentiment and holder fields. -/
theorem calculateScore_bias0_reads_more_than_change24h :
    depAssetA.price_change_percentage_24h =
        depAssetB.price_change_percentage_24h ∧
    depAssetA.id ≠ depAssetB.id ∧
    depAssetA.symbol ≠ depAssetB.symbol ∧
    depAssetA.name ≠ depAssetB.name ∧
    depAssetA.current_price ≠ depAssetB.current_price ∧
    depAssetA.price_change_percentage_7d_in_currency ≠
        depAssetB.price_change_percentage_7d_in_currency ∧
    depAssetA.market_cap ≠ depAssetB.market_cap ∧
    depAssetA.total_volume ≠ depAssetB.total_volume ∧
    depAssetA.score ≠ depAssetB.score ∧
    depAssetA.bullishScore ≠ depAssetB.bullishScore ∧
    depAssetA.bearishScore ≠ depAssetB.bearishScore ∧
    depAssetA.mentionVolume ≠ depAssetB.mentionVolume ∧
    depAssetA.liquidity ≠ depAssetB.liquidity ∧
    depAssetA.holders ≠ depAssetB.holders ∧
    depAssetA.alerts ≠ depAssetB.alerts ∧
    calculateScore depAssetA 0 ≠ calculateScore depAssetB 0 := by
  refine ⟨rfl, ?_⟩
  norm_num [depAssetA, depAssetB, calculateScore]
  exact ⟨by decide, by decide, by decide, by decide⟩

/-- C6 (amended): the score at riskBias 0 depends only on the 24h change,
the sentiment scores and the holder count (in particular it ignores the
7d change), and the score at riskBias 1 depends only on the 7d change, the
sentiment scores and the holder count. -/
theorem calculateScore_bias_dependence :
    (∀ a b : Asset,
      a.price_change_percentage_24h = b.price_change_percentage_24h →
      a.bullishScore = b.bullishScore →
      a.bearishScore = b.bearishScore →
      a.holders = b.holders →
      calculateScore a 0 = calculateScore b 0) ∧
    (∀ a b : Asset,
      a.price_change_percentage_7d_in_currency =
          b.price_change_percentage_7d_in_currency →
      a.bullishScore = b.bullishScore →
      a.bearishScore = b.bearishScore →
      a.holders = b.holders →
      calculateScore a 1 = calculateScore b 1) := by
  constructor <;>
  · intro a b h1 h2 h3 h4
    simp only [calculateScore, h1, h2, h3, h4]
    ring

/-- Witness for `calculateScore_bias_dependence` at concrete records. -/
theorem calculateScore_bias_dependence_witness :
    calculateScore depAssetA 0 = calculateScore dep7Variant 0 ∧
    calculateScore depAssetA 1 = calculateScore dep24Variant 1 :=
  ⟨calculateScore_bias_dependence.1 depAssetA dep7Variant rfl rfl rfl rfl,
    calculateScore_bias_dependence.2 depAssetA dep24Variant rfl rfl rfl rfl⟩

/-- C2: the merge yields exactly the price list's identifiers (one output
record per price record, exactly one per identifier when the price ids are
distinct), auxiliary entries whose id is absent from the price list are
dropped without any effect on the output, and an empty price list yields an
empty output. -/
theorem mergeAssets_universe_is_price_list :
    (∀ (p : List Asset) (s : List SentimentEntry) (o : List OnchainEntry)
        (n : List NewsEntry),
      (mergeAssets p s o n).map Asset.id = p.map Asset.id) ∧
    (∀ (p : List Asset) (s : List SentimentEntry) (o : List OnchainEntry)
        (n : List NewsEntry),
      (p.map Asset.id).Nodup → ∀ ident : String,
        ((mergeAssets p s o n).map Asset.id).count ident =
          if ident ∈ p.map Asset.id then 1 else 0) ∧
    (∀ (p : List Asset) (s1 s2 : List SentimentEntry) (x : SentimentEntry)
        (o : List OnchainEntry) (n : List NewsEntry),
      x.id ∉ p.map Asset.id →
        mergeAssets p (s1 ++ x :: s2) o n = mergeAssets p (s1 ++ s2) o n) ∧
    (∀ (p : List Asset) (s : List SentimentEntry) (o1 o2 : List OnchainEntry)
        (x : OnchainEntry) (n : List NewsEntry),
      x.id ∉ p.map Asset.id →
        mergeAssets p s (o1 ++ x :: o2) n = mergeAssets p s (o1 ++ o2) n) ∧
    (∀ (p : List Asset) (s : List SentimentEntry) (o : List OnchainEntry)
        (n1 n2 : List NewsEntry) (x : NewsEntry),
      x.id ∉ p.map Asset.id →
        mergeAssets p s o (n1 ++ x :: n2) = mergeAssets p s o (n1 ++ n2)) ∧
    (∀ (s : List SentimentEntry) (o : List OnchainEntry) (n : List NewsEntry),
      mergeAssets [] s o n = []) := by
  refine ⟨mergeAssets_map_id, ?_,
    fun p s1 s2 x o n hx => mergeAssets_drop_sentiment p s1 s2 x o n hx,
    fun p s o1 o2 x n hx => mergeAssets_drop_onchain p s o1 o2 x n hx,
    fun p s o n1 n2 x hx => mergeAssets_drop_news p s o n1 n2 x hx,
    fun s o n => rfl⟩
  intro p s o n hnd ident
  rw [mergeAssets_map_id]
  by_cases hmem : ident ∈ p.map Asset.id
  · rw [if_pos hmem]
    exact List.count_eq_one_of_mem hnd hmem
  · rw [if_neg hmem]
    exact List.count_eq_zero_of_not_mem hmem

/-- Witness for `mergeAssets_universe_is_price_list` at concrete inputs:
inserting a sentiment entry with an unknown id changes nothing, and with
distinct price ids the output carries each price id exactly once. -/
theorem mergeAssets_universe_is_price_list_witness :
    mergeAssets [solanaRec] ([] ++ straySentiment :: [solanaSentiment]) [] []
        = mergeAssets [solanaRec] ([] ++ [solanaSentiment]) [] [] ∧
    mergeAssets [solanaRec] [] ([] ++ strayOnchain :: []) []
        = mergeAssets [solanaRec] [] ([] ++ []) [] ∧
    mergeAssets [solanaRec] [] [] ([] ++ strayNews :: [])
        = mergeAssets [solanaRec] [] [] ([] ++ []) ∧
    ((mergeAssets [solanaRec] [solanaSentiment] [] []).map Asset.id).count
        "solana" = if "solana" ∈ [solanaRec].map Asset.id then 1 else 0 :=
  ⟨mergeAssets_universe_is_price_list.2.2.1 [solanaRec] [] [solanaSentiment]
      straySentiment [] [] (by decide),
    mergeAssets_universe_is_price_list.2.2.2.1 [solanaRec] [] [] []
      strayOnchain [] (by decide),
    mergeAssets_universe_is_price_list.2.2.2.2.1 [solanaRec] [] [] [] []
      strayNews (by decide),
    mergeAssets_universe_is_price_list.2.1 [solanaRec] [solanaSentiment] [] []
      (by decide) "solana"⟩

/-- C8: merging auxiliary data never changes a field supplied by the price
source — the merged list has the same length as the price list, and the
record at each position keeps the price record's id, symbol, name, price,
24h and 7d changes, market cap and volume. -/
theorem mergeAssets_price_fields_frame :
    ∀ (p : List Asset) (s : List SentimentEntry) (o : List OnchainEntry)
      (n : List NewsEntry),
      (mergeAssets p s o n).length = p.length ∧
      ∀ (i : Nat) (hi : i < (mergeAssets p s o n).length)
        (hp : i < p.length),
        priceFields ((mergeAssets p s o n).get ⟨i, hi⟩) =
          priceFields (p.get ⟨i, hp⟩) := by
  intro p s o n
  constructor
  · simp [mergeAssets]
  · intro i hi hp
    simp only [mergeAssets, List.map_map, List.get_eq_getElem,
      List.getElem_map, Function.comp_apply]
    rw [applyNews_priceFields, applyOnchain_priceFields,
      applySentiment_priceFields]

/-- Witness for `mergeAssets_price_fields_frame`: at position 0 of a
concrete merge the price-owned fields equal those of the price record. -/
theorem mergeAssets_price_fields_frame_witness :
    priceFields ((mergeAssets [solanaRec] [solanaSentiment] [] []).get
        ⟨0, by simp [mergeAssets]⟩) =
      priceFields (([solanaRec] : List Asset).get ⟨0, by simp⟩) :=
  (mergeAssets_price_fields_frame [solanaRec] [solanaSentiment] [] []).2 0
    (by simp [mergeAssets]) (by simp)

/-- C3: for every record list, pin set, sort field and direction, the sorted
output is a block of pinned records followed by a block of non-pinned
records — every watchlisted record comes strictly before every
non-watchlisted one; on the spec's example (pins contain only dogecoin,
records bitcoin with score 50 and dogecoin with score -5, sorted by score
descending) the output is [dogecoin, bitcoin]. -/
theorem sorted_pins_first :
    (∀ (recs : List Asset) (pins : Finset String) (f d : String),
      ∃ l1 l2, sortAssets recs pins f d = l1 ++ l2 ∧
        (∀ a ∈ l1, a.id ∈ pins) ∧ (∀ a ∈ l2, a.id ∉ pins)) ∧
    sortAssets [bitcoinRec, dogecoinRec] {"dogecoin"} "score" "desc" =
      [dogecoinRec, bitcoinRec] := by
  constructor
  · intro recs pins f d
    exact pairwise_pin_split pins f d _ (sortAssets_pairwise recs pins f d)
  · rw [sortAssets, mergeSort_pair]
    have h1 : bitcoinRec.id ∉ ({"dogecoin"} : Finset String) := by decide
    have h2 : dogecoinRec.id ∈ ({"dogecoin"} : Finset String) := by decide
    have hcmp :
        assetCmp {"dogecoin"} "score" "desc" bitcoinRec dogecoinRec = 1 := by
      unfold assetCmp
      rw [if_neg (fun h => h1 h.1), if_pos ⟨h1, h2⟩]
    have hneg : ¬ (decide
        (assetCmp {"dogecoin"} "score" "desc" bitcoinRec dogecoinRec ≤ 0)
          = true) := by
      rw [decide_eq_true_iff, hcmp]
      norm_num
    rw [if_neg hneg]

/-- Witness for `sorted_pins_first` at the spec's example input. -/
theorem sorted_pins_first_witness :
    ∃ l1 l2,
      sortAssets [bitcoinRec, dogecoinRec] {"dogecoin"} "score" "desc" =
        l1 ++ l2 ∧
      (∀ a ∈ l1, a.id ∈ ({"dogecoin"} : Finset String)) ∧
      (∀ a ∈ l2, a.id ∉ ({"dogecoin"} : Finset String)) :=
  sorted_pins_first.1 [bitcoinRec, dogecoinRec] {"dogecoin"} "score" "desc"

/-- C4: the filter predicate of `filtered` retains a record iff it satisfies
the conjunction of the text predicate (a non-empty trimmed lowercased search
term must occur in the lowercased name or symbol) and one inclusive bound
predicate per supplied numeric bound (min: field ≥ bound, max: field ≤
bound), missing record fields compared as 0, absent or unparseable bounds
imposing no constraint. -/
theorem matchesFilter_iff_conjunction :
    ∀ (search : String) (f : Filters) (a : Asset),
      matchesFilter search f a = true ↔ matchesFilterSpec search f a :=
  matchesFilter_eq_spec

/-- C9: tightening any bound (raising a min, lowering a max, or adding a
previously absent bound) never turns the filter predicate from false to
true, so the retained sublist of any record list only shrinks or stays
equal. -/
theorem matchesFilter_monotone_in_bounds :
    ∀ (search : String) (f ft : Filters) (a : Asset) (assets : List Asset),
      filtersTightened f ft →
      (matchesFilter search ft a = true → matchesFilter search f a = true) ∧
      (∀ x ∈ assets.filter (matchesFilter search ft),
        x ∈ assets.filter (matchesFilter search f)) := by
  intro search f ft a assets ht
  obtain ⟨t1, t2, t3, t4, t5, t6, t7, t8, t9, t10, t11, t12⟩ := ht
  have key : ∀ y : Asset, matchesFilter search ft y = true →
      matchesFilter search f y = true := by
    intro y hy
    rw [matchesFilter_eq_spec] at hy ⊢
    obtain ⟨h0, h1, h2, h3, h4, h5, h6, h7, h8, h9, h10, h11, h12⟩ := hy
    exact ⟨h0, minOk_of_tightened t1 h1, maxOk_of_tightened t2 h2,
      minOk_of_tightened t3 h3, maxOk_of_tightened t4 h4,
      minOk_of_tightened t5 h5, maxOk_of_tightened t6 h6,
      minOk_of_tightened t7 h7, minOk_of_tightened t8 h8,
      minOk_of_tightened t9 h9, maxOk_of_tightened t10 h10,
      minOk_of_tightened t11 h11, minOk_of_tightened t12 h12⟩
  refine ⟨key a, fun x hx => ?_⟩
  rw [List.mem_filter] at hx ⊢
  exact ⟨hx.1, key x hx.2⟩

/-- Witness for `matchesFilter_monotone_in_bounds`: adding a min-price bound
of 1 tightens the empty filter set, and a record passing the tightened
filters still passes the original ones. -/
theorem matchesFilter_monotone_in_bounds_witness :
    filtersTightened emptyFilters tightFilters ∧
    matchesFilter "" tightFilters solanaRec = true ∧
    matchesFilter "" emptyFilters solanaRec = true := by
  have ht : filtersTightened emptyFilters tightFilters :=
    ⟨Or.inl rfl, Or.inl rfl, Or.inl rfl, Or.inl rfl, Or.inl rfl, Or.inl rfl,
      Or.inl rfl, Or.inl rfl, Or.inl rfl, Or.inl rfl, Or.inl rfl, Or.inl rfl⟩
  have hm : matchesFilter "" tightFilters solanaRec = true := by
    norm_num [matchesFilter, tightFilters, emptyFilters, solanaRec,
      baseAsset, minFails, maxFails]
    exact Or.inl (by decide)
  exact ⟨ht, hm,
    (matchesFilter_monotone_in_bounds "" emptyFilters tightFilters
      solanaRec [] ht).1 hm⟩

/-- C5 counterexample: in the default-load path a non-success price response
leaves the previously displayed records in place — the displayed list is not
emptied. -/
theorem loadDefault_price_httpError_keeps_stale :
    loadDefaultAssets [solanaRec] FetchOutcome.httpError
        (FetchOutcome.success []) (FetchOutcome.success [])
        (FetchOutcome.success []) ≠ [] := by
  simp [loadDefaultAssets]

/-- C5 (amended): only the search-refresh path clears the displayed list on
a non-success price response; the default-load path keeps the previously
displayed list on a non-success or thrown price fetch, and shows an empty
list only when the price fetch succeeds with an empty payload. -/
theorem price_fetch_failure_behavior :
    ∀ (prev : List Asset) (sOut : FetchOutcome (List SentimentEntry))
      (oOut : FetchOutcome (List OnchainEntry))
      (nOut : FetchOutcome (List NewsEntry)),
      searchRefreshAssets prev FetchOutcome.httpError sOut oOut nOut = [] ∧
      loadDefaultAssets prev FetchOutcome.httpError sOut oOut nOut = prev ∧
      loadDefaultAssets prev FetchOutcome.thrown sOut oOut nOut = prev ∧
      loadDefaultAssets prev (FetchOutcome.success []) sOut oOut nOut = [] :=
  fun _ _ _ _ => ⟨rfl, rfl, rfl, rfl⟩

/-- C7 counterexample: in the default-load path a thrown sentiment fetch does
not behave like an empty sentiment result — the merge never runs and the
output does not carry one record per price identifier. -/
theorem loadDefault_thrown_sentiment_aborts :
    (loadDefaultAssets [] (FetchOutcome.success [solanaRec])
        FetchOutcome.thrown (FetchOutcome.success [])
        (FetchOutcome.success [])).map Asset.id ≠
      ([solanaRec] : List Asset).map Asset.id := by
  simp [loadDefaultAssets]

/-- C7 (amended): an auxiliary source returning a non-success response (and,
for the news source, even a thrown fetch) is treated exactly as an empty
result set — the merge still runs, yields one record per price identifier,
and a failed sentiment source leaves the sentiment fields of every record
exactly those of the price record; but a thrown sentiment or on-chain fetch
aborts the default-load update instead. -/
theorem aux_failure_acts_as_empty :
    ∀ (prev p : List Asset) (sOut : FetchOutcome (List SentimentEntry))
      (oOut : FetchOutcome (List OnchainEntry))
      (nOut : FetchOutcome (List NewsEntry)),
      sOut ≠ FetchOutcome.thrown → oOut ≠ FetchOutcome.thrown →
      (loadDefaultAssets prev (FetchOutcome.success p) sOut oOut nOut =
        mergeAssets p (auxData sOut) (auxData oOut) (auxData nOut)) ∧
      ((loadDefaultAssets prev (FetchOutcome.success p) sOut oOut nOut).map
          Asset.id = p.map Asset.id) ∧
      (∀ (i : Nat)
        (hi : i < (mergeAssets p [] (auxData oOut) (auxData nOut)).length)
        (hp : i < p.length),
        ((mergeAssets p [] (auxData oOut) (auxData nOut)).get
            ⟨i, hi⟩).bullishScore = (p.get ⟨i, hp⟩).bullishScore ∧
        ((mergeAssets p [] (auxData oOut) (auxData nOut)).get
            ⟨i, hi⟩).bearishScore = (p.get ⟨i, hp⟩).bearishScore ∧
        ((mergeAssets p [] (auxData oOut) (auxData nOut)).get
            ⟨i, hi⟩).mentionVolume = (p.get ⟨i, hp⟩).mentionVolume) := by
  intro prev p sOut oOut nOut hs ho
  have key : loadDefaultAssets prev (FetchOutcome.success p) sOut oOut nOut =
      mergeAssets p (auxData sOut) (auxData oOut) (auxData nOut) := by
    cases sOut with
    | thrown => exact absurd rfl hs
    | success d =>
        cases oOut with
        | thrown => exact absurd rfl ho
        | success e => exact ite_isEmpty_merge p _ _ _
        | httpError => exact ite_isEmpty_merge p _ _ _
    | httpError =>
        cases oOut with
        | thrown => exact absurd rfl ho
        | success e => exact ite_isEmpty_merge p _ _ _
        | httpError => exact ite_isEmpty_merge p _ _ _
  refine ⟨key, by rw [key, mergeAssets_map_id], ?_⟩
  intro i hi hp
  simp only [mergeAssets, List.map_map, List.get_eq_getElem,
    List.getElem_map, Function.comp_apply]
  exact merge_no_sentiment_frame _ _ _

/-- Witness for `aux_failure_acts_as_empty`: a non-success sentiment
response on a one-record price list. -/
theorem aux_failure_acts_as_empty_witness :
    loadDefaultAssets [] (FetchOutcome.success [solanaRec])
        FetchOutcome.httpError (FetchOutcome.success [])
        (FetchOutcome.success []) = mergeAssets [solanaRec] [] [] [] ∧
    (loadDefaultAssets [] (FetchOutcome.success [solanaRec])
        FetchOutcome.httpError (FetchOutcome.success [])
        (FetchOutcome.success [])).map Asset.id =
      ([solanaRec] : List Asset).map Asset.id ∧
    ((mergeAssets [solanaRec] [] [] []).get ⟨0, by simp [mergeAssets]⟩).bullishScore
      = (([solanaRec] : List Asset).get ⟨0, by simp⟩).bullishScore := by
  obtain ⟨h1, h2, h3⟩ := aux_failure_acts_as_empty [] [solanaRec]
    FetchOutcome.httpError (FetchOutcome.success [])
    (FetchOutcome.success []) (by simp) (by simp)
  exact ⟨h1, h2, (h3 0 (by simp [mergeAssets]) (by simp)).1⟩

/-- C10: toggling the watchlist flips membership of the toggled id, leaves
every other id's membership unchanged, and is an involution. -/
theorem toggleWatch_flip_frame_involutive :
    ∀ (W : Finset String) (id : String),
      (id ∈ toggleWatch W id ↔ id ∉ W) ∧
      (∀ x, x ≠ id → (x ∈ toggleWatch W id ↔ x ∈ W)) ∧
      toggleWatch (toggleWatch W id) id = W := by
  intro W id
  by_cases h : id ∈ W
  · refine ⟨by simp [toggleWatch, h], fun x hx => ?_, ?_⟩
    · simp [toggleWatch, h, Finset.mem_erase, hx]
    · simp only [toggleWatch, if_pos h]
      rw [if_neg (Finset.not_mem_erase id W), Finset.insert_erase h]
  · refine ⟨by simp [toggleWatch, h], fun x hx => ?_, ?_⟩
    · simp [toggleWatch, h, Finset.mem_insert, hx]
    · simp only [toggleWatch, if_neg h]
      rw [if_pos (Finset.mem_insert_self id W), Finset.erase_insert h]

/-- Witness for `toggleWatch_flip_frame_involutive` at a concrete watchlist
and ids. -/
theorem toggleWatch_flip_frame_involutive_witness :
    (("a" : String) ∈ toggleWatch {"a"} "b" ↔ ("a" : String) ∈
      ({"a"} : Finset String)) ∧
    toggleWatch (toggleWatch {"a"} "b") "b" = ({"a"} : Finset String) :=
  ⟨(toggleWatch_flip_frame_involutive {"a"} "b").2.1 "a" (by decide),
    (toggleWatch_flip_frame_involutive {"a"} "b").2.2⟩

end Moonshot
